import Mathlib

/-!
Shallow embedding of `mev_inspect/block.py`: assembly of a normalized `Block`
record from a cache store (trace DB) and an RPC gateway, together with the
auxiliary utilities (`get_latest_block_number`, miner resolution, transaction
hash extraction).

Python exceptions are modelled with `Except Err`; the I/O performed by a call
(database queries and gateway RPC invocations) is recorded in an explicit
effect log, so that statements about which external calls happen are provable.
-/

namespace MevInspect

/-- Errors: Python exceptions (transport failures, KeyError, parse failures). -/
abbrev Err := String

/-- Minimal JSON values, for raw RPC envelopes. -/
inductive Json where
  | null
  | bool (b : Bool)
  | num (n : Nat)
  | str (s : String)
  | arr (elems : List Json)
  | obj (fields : List (String × Json))

/-- Trace types, per `mev_inspect.schemas.traces.TraceType` (external schema:
an enumeration including a `reward` variant). -/
inductive TraceType where
  | call
  | create
  | delegateCall
  | reward
  | suicide
deriving DecidableEq

/-- A parsed trace: the attribute surface used by `block.py` is `type`,
`transaction_hash` and `action` (a string mapping holding `author` for
reward traces). -/
structure Trace where
  type : TraceType
  transaction_hash : Option String
  action : List (String × String)
deriving DecidableEq

/-- A parsed receipt: opaque to `block.py`, which never inspects its fields. -/
structure Receipt where
  fields : List (String × String)
deriving DecidableEq

/-- Raw wire/cached JSON record for one receipt or trace. -/
abbrev Raw := List (String × String)

/-- The header JSON returned by `w3.eth.get_block`: the fields read by
`block.py` are `timestamp` and (optionally present) `baseFeePerGas`. -/
structure HeaderJson where
  timestamp : Nat
  baseFeePerGas : Option Nat

/-- The external parsers (`Trace(**json)` / `Receipt(**json)`): opaque
validating constructors that may fail on missing required fields. -/
structure Parsers where
  parseReceipt : Raw → Except Err Receipt
  parseTrace : Raw → Except Err Trace

/-- The RPC gateway (`w3.eth`): what the remote node answers to each typed
fetch; an `error` result is a transport failure. -/
structure Gateway where
  get_block : Nat → Except Err HeaderJson
  get_block_receipts : Nat → Except Err (List Raw)
  trace_block : Nat → Except Err (List Raw)

/-- The raw JSON-RPC provider used by `get_latest_block_number`. -/
structure Provider where
  make_request : String → List Json → Except Err Json

/-- The trace DB cache (`trace_db_session`): three point lookups keyed by
block number, returning `none` when no row exists. -/
structure TraceDB where
  blocks : Nat → Option (Nat × Nat)
  block_receipts : Nat → Option (List Raw)
  block_traces : Nat → Option (List Raw)

/-- One observable external call: a database query or a gateway RPC call. -/
inductive Effect where
  | dbQuery (sql : String) (blockNumber : Nat)
  | rpcGetBlock (blockNumber : Nat)
  | rpcGetBlockReceipts (blockNumber : Nat)
  | rpcTraceBlock (blockNumber : Nat)
  | rpcRequest (method : String) (params : List Json)

/-- Python `_get_miner_address_from_traces`: first reward-type trace's
`action["author"]`; the subscript is unguarded, so a reward trace whose
action lacks the key raises `KeyError`. -/
def _get_miner_address_from_traces : List Trace → Except Err (Option String)
  | [] => .ok none
  | trace :: rest =>
    if trace.type = TraceType.reward then
      match trace.action.lookup "author" with
      | some author => .ok (some author)
      | none => .error "KeyError: author"
    else
      _get_miner_address_from_traces rest

/-- The `for call in calls` loop of `get_transaction_hashes`, with `result`
as the accumulator: a non-reward trace whose hash is present and not yet
collected appends its hash. -/
def get_transaction_hashes_loop : List String → List Trace → List String
  | result, [] => result
  | result, call :: calls =>
    if call.type ≠ TraceType.reward then
      match call.transaction_hash with
      | some h =>
        if h ∈ result then get_transaction_hashes_loop result calls
        else get_transaction_hashes_loop (result ++ [h]) calls
      | none => get_transaction_hashes_loop result calls
    else get_transaction_hashes_loop result calls

/-- Python `get_transaction_hashes`: collect transaction hashes of non-reward
traces, skipping absent hashes and already-collected ones. -/
def get_transaction_hashes (calls : List Trace) : List String :=
  get_transaction_hashes_loop [] calls

/-- Value of one hexadecimal digit. -/
def hexDigitVal (c : Char) : Option Nat :=
  if '0' ≤ c ∧ c ≤ '9' then some (c.toNat - '0'.toNat)
  else if 'a' ≤ c ∧ c ≤ 'f' then some (c.toNat - 'a'.toNat + 10)
  else if 'A' ≤ c ∧ c ≤ 'F' then some (c.toNat - 'A'.toNat + 10)
  else none

/-- Modelled from the spec: `hex_to_int` lives in `mev_inspect.utils`, which
is not part of the sources here; per the spec it decodes a hexadecimal string
(optionally `0x`-prefixed) into an integer and fails on malformed input. -/
def hex_to_int (value : String) : Except Err Nat :=
  let digits : List Char :=
    match value.data with
    | '0' :: 'x' :: rest => rest
    | chars => chars
  match digits.mapM hexDigitVal with
  | some ds =>
    if ds.isEmpty then .error "ValueError: invalid hex literal"
    else .ok (ds.foldl (fun acc d => 16 * acc + d) 0)
  | none => .error "ValueError: invalid hex literal"

/-- Python subscript `j[key]` on a JSON value: `KeyError` when the key is
absent, `TypeError` when the value is not an object. -/
def jsonGet (j : Json) (key : String) : Except Err Json :=
  match j with
  | .obj fields =>
    match fields.lookup key with
    | some v => .ok v
    | none => .error ("KeyError: " ++ key)
  | _ => .error "TypeError: not subscriptable"

/-- Python `get_latest_block_number`: raw `eth_getBlockByNumber ["latest", False]`
request, then `hex_to_int(latest_block["result"]["number"])`. -/
def get_latest_block_number (base_provider : Provider) :
    Except Err Nat × List Effect :=
  let latest_block :=
    base_provider.make_request "eth_getBlockByNumber" [Json.str "latest", Json.bool false]
  (do
    let lb ← latest_block
    let result ← jsonGet lb "result"
    let number ← jsonGet result "number"
    match number with
    | .str s => hex_to_int s
    | _ => .error "TypeError: int() argument",
   [Effect.rpcRequest "eth_getBlockByNumber" [Json.str "latest", Json.bool false]])

/-- The assembled block record, per `mev_inspect.schemas.blocks.Block`
(the fields populated by `create_from_block_number`). -/
structure Block where
  block_number : Nat
  block_timestamp : Nat
  miner : Option String
  base_fee_per_gas : Nat
  traces : List Trace
  receipts : List Receipt

/-- The SQL text of the header-row lookup in `_find_block`. -/
def sqlBlocks : String :=
  "SELECT block_timestamp, base_fee FROM blocks WHERE block_number = :block_number"

/-- The SQL text of the raw-traces lookup in `_find_block_traces`. -/
def sqlBlockTraces : String :=
  "SELECT raw_traces FROM block_traces WHERE block_number = :block_number"

/-- The SQL text of the raw-receipts lookup in `_find_block_receipts`. -/
def sqlBlockReceipts : String :=
  "SELECT raw_receipts FROM block_receipts WHERE block_number = :block_number"

/-- Python `_find_block`: header-row lookup; a missing row yields the `(0, 0)`
sentinel. -/
def _find_block (trace_db_session : TraceDB) (block_number : Nat) :
    (Nat × Nat) × List Effect :=
  (match trace_db_session.blocks block_number with
   | none => (0, 0)
   | some (block_timestamp, base_fee) => (block_timestamp, base_fee),
   [Effect.dbQuery sqlBlocks block_number])

/-- Python `_find_block_traces`: raw-traces row lookup; `none` when no row, else the
row's JSON parsed through `Trace(**trace_json)` (which may fail). -/
def _find_block_traces (ps : Parsers) (trace_db_session : TraceDB)
    (block_number : Nat) : Except Err (Option (List Trace)) × List Effect :=
  (match trace_db_session.block_traces block_number with
   | none => .ok none
   | some traces_json => (traces_json.mapM ps.parseTrace).map some,
   [Effect.dbQuery sqlBlockTraces block_number])

/-- Python `_find_block_receipts`: raw-receipts row lookup; `none` when no row, else
the row's JSON parsed through `Receipt(**receipt)` (which may fail). -/
def _find_block_receipts (ps : Parsers) (trace_db_session : TraceDB)
    (block_number : Nat) : Except Err (Option (List Receipt)) × List Effect :=
  (match trace_db_session.block_receipts block_number with
   | none => .ok none
   | some receipts_json => (receipts_json.mapM ps.parseReceipt).map some,
   [Effect.dbQuery sqlBlockReceipts block_number])

/-- Python `_fetch_block`: `w3.eth.get_block`, then `(timestamp, baseFeePerGas if
block_number >= 12_965_000 else 0)`; reading an absent `baseFeePerGas` field
on a post-upgrade block raises `KeyError`. -/
def _fetch_block (w3 : Gateway) (block_number : Nat) :
    Except Err (Nat × Nat) × List Effect :=
  (match w3.get_block block_number with
   | .error e => .error e
   | .ok block_json =>
     if block_number ≥ 12965000 then
       match block_json.baseFeePerGas with
       | some base_fee => .ok (block_json.timestamp, base_fee)
       | none => .error "KeyError: baseFeePerGas"
     else .ok (block_json.timestamp, 0),
   [Effect.rpcGetBlock block_number])

/-- Python `_fetch_block_receipts`: `w3.eth.get_block_receipts`, each raw record
parsed through `Receipt(**receipt)`. -/
def _fetch_block_receipts (ps : Parsers) (w3 : Gateway) (block_number : Nat) :
    Except Err (List Receipt) × List Effect :=
  (match w3.get_block_receipts block_number with
   | .error e => .error e
   | .ok receipts_json => receipts_json.mapM ps.parseReceipt,
   [Effect.rpcGetBlockReceipts block_number])

/-- Python `_fetch_block_traces`: `w3.eth.trace_block`, each raw record parsed
through `Trace(**trace_json)`. -/
def _fetch_block_traces (ps : Parsers) (w3 : Gateway) (block_number : Nat) :
    Except Err (List Trace) × List Effect :=
  (match w3.trace_block block_number with
   | .error e => .error e
   | .ok traces_json => traces_json.mapM ps.parseTrace,
   [Effect.rpcTraceBlock block_number])

/-- Python `_find_or_fetch_block`: with a session configured, take the cached header
pair when its timestamp is nonzero, otherwise fall through to the gateway
fetch. -/
def _find_or_fetch_block (w3 : Gateway) (block_number : Nat)
    (trace_db_session : Option TraceDB) : Except Err (Nat × Nat) × List Effect :=
  match trace_db_session with
  | some session =>
    let ((existing_block_timestamp, existing_base_fee), l₁) :=
      _find_block session block_number
    if existing_block_timestamp ≠ 0 then
      (.ok (existing_block_timestamp, existing_base_fee), l₁)
    else
      let (r, l₂) := _fetch_block w3 block_number
      (r, l₁ ++ l₂)
  | none => _fetch_block w3 block_number

/-- Python `_find_or_fetch_block_receipts`: with a session configured, any non-`None`
cache result (including the empty list) is returned; only `None` falls through
to the gateway fetch. A parse failure on the cached row propagates. -/
def _find_or_fetch_block_receipts (ps : Parsers) (w3 : Gateway)
    (block_number : Nat) (trace_db_session : Option TraceDB) :
    Except Err (List Receipt) × List Effect :=
  match trace_db_session with
  | some session =>
    let (r, l₁) := _find_block_receipts ps session block_number
    match r with
    | .error e => (.error e, l₁)
    | .ok (some existing_block_receipts) => (.ok existing_block_receipts, l₁)
    | .ok none =>
      let (r₂, l₂) := _fetch_block_receipts ps w3 block_number
      (r₂, l₁ ++ l₂)
  | none => _fetch_block_receipts ps w3 block_number

/-- Python `_find_or_fetch_block_traces`: same policy as the receipts lookup. -/
def _find_or_fetch_block_traces (ps : Parsers) (w3 : Gateway)
    (block_number : Nat) (trace_db_session : Option TraceDB) :
    Except Err (List Trace) × List Effect :=
  match trace_db_session with
  | some session =>
    let (r, l₁) := _find_block_traces ps session block_number
    match r with
    | .error e => (.error e, l₁)
    | .ok (some existing_block_traces) => (.ok existing_block_traces, l₁)
    | .ok none =>
      let (r₂, l₂) := _fetch_block_traces ps w3 block_number
      (r₂, l₁ ++ l₂)
  | none => _fetch_block_traces ps w3 block_number

/-- Python `create_from_block_number`: `asyncio.gather` of the three cache-or-fetch
lookups (all three run; effects from all are recorded; the result fails when
any sub-result fails), then miner derivation and `Block` construction. -/
def create_from_block_number (ps : Parsers) (w3 : Gateway) (block_number : Nat)
    (trace_db_session : Option TraceDB) : Except Err Block × List Effect :=
  let (r₁, l₁) := _find_or_fetch_block w3 block_number trace_db_session
  let (r₂, l₂) := _find_or_fetch_block_receipts ps w3 block_number trace_db_session
  let (r₃, l₃) := _find_or_fetch_block_traces ps w3 block_number trace_db_session
  (do
    let (block_timestamp, base_fee) ← r₁
    let receipts ← r₂
    let traces ← r₃
    let miner_address ← _get_miner_address_from_traces traces
    pure
      { block_number := block_number
        block_timestamp := block_timestamp
        miner := miner_address
        base_fee_per_gas := base_fee
        traces := traces
        receipts := receipts },
   l₁ ++ l₂ ++ l₃)

/-! ### Specification-side definitions (from the spec's words, for comparison) -/

/-- Spec-side: the transaction hashes of the non-reward traces that have one,
in order, duplicates kept. -/
def txHashesWithDuplicates (calls : List Trace) : List String :=
  calls.filterMap fun call =>
    if call.type = TraceType.reward then none else call.transaction_hash

/-- Spec-side: remove duplicates keeping the first occurrence of each
element, order preserved. -/
def dedupFirst : List String → List String
  | [] => []
  | h :: t => h :: dedupFirst (t.filter fun x => x ≠ h)
termination_by l => l.length
decreasing_by
  simp only [List.length_cons]
  exact Nat.lt_succ_of_le (List.length_filter_le _ t)

theorem dedupFirst_nil : dedupFirst [] = [] := by
  rw [dedupFirst]

theorem dedupFirst_cons (h : String) (t : List String) :
    dedupFirst (h :: t) = h :: dedupFirst (t.filter fun x => x ≠ h) := by
  rw [dedupFirst]

/-! ### Theorems -/

/-- Filtering by absence from `acc ++ [h]` is filtering by absence from `acc`
and then by difference from `h`. -/
theorem filter_not_mem_append_singleton (acc : List String) (h : String)
    (L : List String) :
    L.filter (fun x => x ∉ acc ++ [h])
      = (L.filter fun x => x ∉ acc).filter fun x => x ≠ h := by
  rw [List.filter_filter]
  apply List.filter_congr
  intro x _
  by_cases h1 : x ∈ acc <;> by_cases h2 : x = h <;> simp [h1, h2]

/-- Accumulator characterization of the `get_transaction_hashes` loop. -/
theorem get_transaction_hashes_loop_spec (calls : List Trace) :
    ∀ acc : List String,
      get_transaction_hashes_loop acc calls
        = acc ++ dedupFirst ((txHashesWithDuplicates calls).filter fun x => x ∉ acc) := by
  induction calls with
  | nil => intro acc; simp [get_transaction_hashes_loop, txHashesWithDuplicates, dedupFirst_nil]
  | cons call calls ih =>
    intro acc
    by_cases hty : call.type = TraceType.reward
    · simp [get_transaction_hashes_loop, hty, txHashesWithDuplicates, ih]
    · match htx : call.transaction_hash with
      | none =>
        simp [get_transaction_hashes_loop, hty, htx, txHashesWithDuplicates, ih]
      | some h =>
        by_cases hmem : h ∈ acc
        · simp [get_transaction_hashes_loop, hty, htx, hmem, txHashesWithDuplicates,
            List.filter_cons, ih]
        · rw [show get_transaction_hashes_loop acc (call :: calls)
              = get_transaction_hashes_loop (acc ++ [h]) calls by
            simp [get_transaction_hashes_loop, hty, htx, hmem]]
          rw [ih (acc ++ [h])]
          have hhd : (txHashesWithDuplicates (call :: calls)).filter (fun x => x ∉ acc)
              = h :: ((txHashesWithDuplicates calls).filter fun x => x ∉ acc) := by
            simp [txHashesWithDuplicates, hty, htx, List.filter_cons, hmem]
          rw [hhd, dedupFirst_cons, filter_not_mem_append_singleton,
            List.append_assoc, List.singleton_append]

/-- C6: `get_transaction_hashes` returns the transaction hashes of the
non-reward traces that have one, duplicates removed with first-occurrence
order preserved; on `[reward, tx(A), tx(B), tx(A), reward]` it returns
`[A, B]`. -/
theorem get_transaction_hashes_dedup_first_order :
    (∀ calls : List Trace,
      get_transaction_hashes calls = dedupFirst (txHashesWithDuplicates calls)) ∧
    get_transaction_hashes
      [⟨TraceType.reward, none, [("author", "0xminer")]⟩,
       ⟨TraceType.call, some "A", []⟩,
       ⟨TraceType.call, some "B", []⟩,
       ⟨TraceType.call, some "A", []⟩,
       ⟨TraceType.reward, none, [("author", "0xminer")]⟩]
      = ["A", "B"] := by
  constructor
  · intro calls
    rw [get_transaction_hashes, get_transaction_hashes_loop_spec]
    simp
  · rfl

/-- C5: `_get_miner_address_from_traces` returns the `author` of the first
reward-type trace (order preserved, later reward traces ignored), and `none`
when no reward-type trace exists — provided every reward trace's action
carries an `author` entry. -/
theorem miner_address_first_reward (traces : List Trace)
    (h : ∀ t ∈ traces, t.type = TraceType.reward → (t.action.lookup "author").isSome) :
    _get_miner_address_from_traces traces
      = .ok ((traces.find? fun t => decide (t.type = TraceType.reward)).bind
          fun t => t.action.lookup "author") := by
  induction traces with
  | nil => rfl
  | cons t ts ih =>
    by_cases hty : t.type = TraceType.reward
    · have hsome := h t (List.mem_cons_self t ts) hty
      match hlk : t.action.lookup "author" with
      | some author =>
        simp [_get_miner_address_from_traces, hty, hlk, List.find?_cons]
      | none =>
        rw [hlk] at hsome
        simp at hsome
    · rw [show _get_miner_address_from_traces (t :: ts)
          = _get_miner_address_from_traces ts by
        simp [_get_miner_address_from_traces, hty]]
      rw [ih fun t' ht' => h t' (List.mem_cons_of_mem _ ht')]
      simp [List.find?_cons, hty]

/-- Witness for C5 at a concrete trace list with two reward traces: the
first one's author is returned. -/
theorem miner_address_first_reward_witness :
    _get_miner_address_from_traces
      [⟨TraceType.call, some "h1", []⟩,
       ⟨TraceType.reward, none, [("author", "0xabc")]⟩,
       ⟨TraceType.reward, none, [("author", "0xdef")]⟩]
      = .ok (some "0xabc") :=
  (miner_address_first_reward _ (by decide)).trans rfl

/-- C10: on a traces list whose first reward-type trace has an action
lacking the `author` key, `_get_miner_address_from_traces` raises `KeyError`
instead of returning a value. -/
theorem miner_address_missing_author_raises :
    _get_miner_address_from_traces [⟨TraceType.reward, none, []⟩]
      = .error "KeyError: author" := rfl

/-! ### Concrete instances used by witnesses -/

/-- A concrete parser pair: receipts wrap their raw record, traces parse to a
fixed call trace. -/
def psFix : Parsers :=
  ⟨fun r => .ok ⟨r⟩, fun r => .ok ⟨TraceType.call, r.lookup "transactionHash", []⟩⟩

/-- A gateway answering every fetch: header `(1600000000, 77)`, no receipts,
no traces. -/
def w3Empty : Gateway :=
  ⟨fun _ => .ok ⟨1600000000, some 77⟩, fun _ => .ok [], fun _ => .ok []⟩

/-- A gateway whose receipts fetch fails with a transport error. -/
def w3FailReceipts : Gateway :=
  ⟨fun _ => .ok ⟨1600000000, some 77⟩, fun _ => .error "ConnectionError",
   fun _ => .ok []⟩

/-- A cache holding only the header row `(1622547800, 1000000000)` for block
`12970000`. -/
def dbHeaderOnly : TraceDB :=
  ⟨fun n => if n = 12970000 then some (1622547800, 1000000000) else none,
   fun _ => none, fun _ => none⟩

/-- A cache with no header rows but empty receipts and traces rows for every
block. -/
def dbEmptyLists : TraceDB :=
  ⟨fun _ => none, fun _ => some [], fun _ => some []⟩

/-- A cache with no rows at all. -/
def dbNoRows : TraceDB :=
  ⟨fun _ => none, fun _ => none, fun _ => none⟩

/-- A provider answering the latest-block request with
`{"result": {"number": "0xa"}}`. -/
def providerA : Provider :=
  ⟨fun _ _ => .ok (Json.obj [("result", Json.obj [("number", Json.str "0xa")])])⟩

/-! ### Claims about the fetch and cache-or-fetch paths -/

/-- C4: a fresh header fetch yields `base_fee_per_gas = 0` for every block
number below 12,965,000 regardless of the gateway-reported base fee, and the
gateway's `baseFeePerGas` at or above 12,965,000. -/
theorem fetch_block_base_fee (w3 : Gateway) (block_number : Nat) :
    (block_number < 12965000 →
      ∀ hdr, w3.get_block block_number = .ok hdr →
        (_fetch_block w3 block_number).1 = .ok (hdr.timestamp, 0)) ∧
    (12965000 ≤ block_number →
      ∀ hdr base_fee, w3.get_block block_number = .ok hdr →
        hdr.baseFeePerGas = some base_fee →
        (_fetch_block w3 block_number).1 = .ok (hdr.timestamp, base_fee)) := by
  constructor
  · intro hlt hdr hok
    simp [_fetch_block, hok, Nat.not_le_of_lt hlt]
  · intro hge hdr base_fee hok hfee
    simp [_fetch_block, hok, hge, hfee]

/-- Witness for C4: block `12964999` fetched from a gateway reporting base
fee `77` still yields base fee `0`; block `12965000` yields `77`. -/
theorem fetch_block_base_fee_witness :
    (_fetch_block w3Empty 12964999).1 = .ok (1600000000, 0) ∧
    (_fetch_block w3Empty 12965000).1 = .ok (1600000000, 77) :=
  ⟨(fetch_block_base_fee w3Empty 12964999).1 (by decide) _ rfl,
   (fetch_block_base_fee w3Empty 12965000).2 (by decide) _ 77 rfl rfl⟩

/-- C3: when the header row is absent (the `(0, 0)` sentinel) or present with
a literally zero timestamp, `_find_or_fetch_block` falls through to the
gateway header fetch. -/
theorem find_or_fetch_block_zero_timestamp (w3 : Gateway) (block_number : Nat)
    (db : TraceDB)
    (h : db.blocks block_number = none ∨
      ∃ base_fee, db.blocks block_number = some (0, base_fee)) :
    _find_or_fetch_block w3 block_number (some db)
      = ((_fetch_block w3 block_number).1,
         [Effect.dbQuery sqlBlocks block_number,
          Effect.rpcGetBlock block_number]) := by
  rcases h with h | ⟨base_fee, h⟩ <;>
    simp [_find_or_fetch_block, _find_block, _fetch_block, h]

/-- Witness for C3 at a cache with no rows: block 7's header is fetched from
the gateway after the database lookup. -/
theorem find_or_fetch_block_zero_timestamp_witness :
    _find_or_fetch_block w3Empty 7 (some dbNoRows)
      = ((_fetch_block w3Empty 7).1,
         [Effect.dbQuery sqlBlocks 7, Effect.rpcGetBlock 7]) :=
  find_or_fetch_block_zero_timestamp w3Empty 7 dbNoRows (Or.inl rfl)

/-- C2: an empty cached receipts (resp. traces) list is a valid cache hit —
the empty list is returned and no gateway fetch for that data kind occurs;
conversely a gateway fetch for a data kind occurs only when that kind's
cache lookup found no row. -/
theorem find_or_fetch_empty_list_cache_hit (ps : Parsers) (w3 : Gateway)
    (block_number : Nat) (db : TraceDB) :
    (db.block_receipts block_number = some [] →
      _find_or_fetch_block_receipts ps w3 block_number (some db)
        = (.ok [], [Effect.dbQuery sqlBlockReceipts block_number])) ∧
    (db.block_traces block_number = some [] →
      _find_or_fetch_block_traces ps w3 block_number (some db)
        = (.ok [], [Effect.dbQuery sqlBlockTraces block_number])) ∧
    (∀ n, Effect.rpcGetBlockReceipts n
        ∈ (_find_or_fetch_block_receipts ps w3 block_number (some db)).2 →
      db.block_receipts block_number = none) ∧
    (∀ n, Effect.rpcTraceBlock n
        ∈ (_find_or_fetch_block_traces ps w3 block_number (some db)).2 →
      db.block_traces block_number = none) := by
  refine ⟨fun h => ?_, fun h => ?_, fun n hmem => ?_, fun n hmem => ?_⟩
  · simp only [_find_or_fetch_block_receipts, _find_block_receipts, h]
    rfl
  · simp only [_find_or_fetch_block_traces, _find_block_traces, h]
    rfl
  · match hrow : db.block_receipts block_number with
    | none => rfl
    | some receipts_json =>
      rw [show (_find_or_fetch_block_receipts ps w3 block_number (some db)).2
            = [Effect.dbQuery sqlBlockReceipts block_number] by
        simp only [_find_or_fetch_block_receipts, _find_block_receipts, hrow]
        match (receipts_json.mapM ps.parseReceipt) with
        | .error e => rfl
        | .ok rs => rfl] at hmem
      simp at hmem
  · match hrow : db.block_traces block_number with
    | none => rfl
    | some traces_json =>
      rw [show (_find_or_fetch_block_traces ps w3 block_number (some db)).2
            = [Effect.dbQuery sqlBlockTraces block_number] by
        simp only [_find_or_fetch_block_traces, _find_block_traces, hrow]
        match (traces_json.mapM ps.parseTrace) with
        | .error e => rfl
        | .ok ts => rfl] at hmem
      simp at hmem

/-- Witness for C2 at a cache holding empty receipts and traces rows for
block 5: both lookups return the empty list with only a database query. -/
theorem find_or_fetch_empty_list_cache_hit_witness :
    _find_or_fetch_block_receipts psFix w3Empty 5 (some dbEmptyLists)
      = (.ok [], [Effect.dbQuery sqlBlockReceipts 5]) ∧
    _find_or_fetch_block_traces psFix w3Empty 5 (some dbEmptyLists)
      = (.ok [], [Effect.dbQuery sqlBlockTraces 5]) :=
  ⟨(find_or_fetch_empty_list_cache_hit psFix w3Empty 5 dbEmptyLists).1 rfl,
   (find_or_fetch_empty_list_cache_hit psFix w3Empty 5 dbEmptyLists).2.1 rfl⟩

/-! ### Helper lemmas about the assembly -/

/-- A nonzero-timestamp header row is returned as-is, with only the database
query as effect. -/
theorem find_or_fetch_block_cache_hit (w3 : Gateway) (block_number : Nat)
    (db : TraceDB) (ts base_fee : Nat) (hdb : db.blocks block_number = some (ts, base_fee))
    (hts : ts ≠ 0) :
    _find_or_fetch_block w3 block_number (some db)
      = (.ok (ts, base_fee), [Effect.dbQuery sqlBlocks block_number]) := by
  simp [_find_or_fetch_block, _find_block, hdb, hts]

/-- The header lookup's effect log is one of three concrete shapes. -/
theorem header_log_eq (w3 : Gateway) (block_number : Nat)
    (trace_db_session : Option TraceDB) :
    (_find_or_fetch_block w3 block_number trace_db_session).2
        = [Effect.rpcGetBlock block_number] ∨
    (_find_or_fetch_block w3 block_number trace_db_session).2
        = [Effect.dbQuery sqlBlocks block_number] ∨
    (_find_or_fetch_block w3 block_number trace_db_session).2
        = [Effect.dbQuery sqlBlocks block_number, Effect.rpcGetBlock block_number] := by
  cases trace_db_session with
  | none => left; rfl
  | some db =>
    match hrow : db.blocks block_number with
    | none =>
      right; right
      simp only [_find_or_fetch_block, _find_block, hrow]
      rfl
    | some (ts, base_fee) =>
      by_cases hts : ts = 0
      · right; right
        simp only [_find_or_fetch_block, _find_block, hrow, hts]
        rfl
      · right; left
        simp only [_find_or_fetch_block, _find_block, hrow]
        simp [hts]

/-- The receipts lookup's effect log is one of three concrete shapes. -/
theorem receipts_log_eq (ps : Parsers) (w3 : Gateway) (block_number : Nat)
    (trace_db_session : Option TraceDB) :
    (_find_or_fetch_block_receipts ps w3 block_number trace_db_session).2
        = [Effect.rpcGetBlockReceipts block_number] ∨
    (_find_or_fetch_block_receipts ps w3 block_number trace_db_session).2
        = [Effect.dbQuery sqlBlockReceipts block_number] ∨
    (_find_or_fetch_block_receipts ps w3 block_number trace_db_session).2
        = [Effect.dbQuery sqlBlockReceipts block_number,
           Effect.rpcGetBlockReceipts block_number] := by
  cases trace_db_session with
  | none => left; rfl
  | some db =>
    match hrow : db.block_receipts block_number with
    | none =>
      right; right
      simp only [_find_or_fetch_block_receipts, _find_block_receipts, hrow]
      rfl
    | some receipts_json =>
      right; left
      simp only [_find_or_fetch_block_receipts, _find_block_receipts, hrow]
      match receipts_json.mapM ps.parseReceipt with
      | .error e => rfl
      | .ok rs => rfl

/-- The traces lookup's effect log is one of three concrete shapes. -/
theorem traces_log_eq (ps : Parsers) (w3 : Gateway) (block_number : Nat)
    (trace_db_session : Option TraceDB) :
    (_find_or_fetch_block_traces ps w3 block_number trace_db_session).2
        = [Effect.rpcTraceBlock block_number] ∨
    (_find_or_fetch_block_traces ps w3 block_number trace_db_session).2
        = [Effect.dbQuery sqlBlockTraces block_number] ∨
    (_find_or_fetch_block_traces ps w3 block_number trace_db_session).2
        = [Effect.dbQuery sqlBlockTraces block_number,
           Effect.rpcTraceBlock block_number] := by
  cases trace_db_session with
  | none => left; rfl
  | some db =>
    match hrow : db.block_traces block_number with
    | none =>
      right; right
      simp only [_find_or_fetch_block_traces, _find_block_traces, hrow]
      rfl
    | some traces_json =>
      right; left
      simp only [_find_or_fetch_block_traces, _find_block_traces, hrow]
      match traces_json.mapM ps.parseTrace with
      | .error e => rfl
      | .ok ts => rfl

/-- Bind on a successful `Except` computation applies the continuation. -/
theorem except_bind_ok {α β : Type} (a : α) (f : α → Except Err β) :
    (bind (Except.ok a) f : Except Err β) = f a := rfl

/-- Bind on a failed `Except` computation propagates the error. -/
theorem except_bind_error {α β : Type} (e : Err) (f : α → Except Err β) :
    (bind (Except.error e) f : Except Err β) = Except.error e := rfl

/-- Lifting `pure` into `Except` is `ok`. -/
theorem except_pure {α : Type} (a : α) :
    (pure a : Except Err α) = Except.ok a := rfl

/-- The assembled result is the sequencing of the three sub-results followed
by miner derivation. -/
theorem create_fst_eq (ps : Parsers) (w3 : Gateway) (block_number : Nat)
    (trace_db_session : Option TraceDB) :
    (create_from_block_number ps w3 block_number trace_db_session).1
      = (do
          let tsfee ← (_find_or_fetch_block w3 block_number trace_db_session).1
          let receipts ← (_find_or_fetch_block_receipts ps w3 block_number trace_db_session).1
          let traces ← (_find_or_fetch_block_traces ps w3 block_number trace_db_session).1
          let miner_address ← _get_miner_address_from_traces traces
          pure
            { block_number := block_number
              block_timestamp := tsfee.1
              miner := miner_address
              base_fee_per_gas := tsfee.2
              traces := traces
              receipts := receipts }) := rfl

/-- The assembly's effect log is the concatenation of the three sub-logs. -/
theorem create_snd_eq (ps : Parsers) (w3 : Gateway) (block_number : Nat)
    (trace_db_session : Option TraceDB) :
    (create_from_block_number ps w3 block_number trace_db_session).2
      = (_find_or_fetch_block w3 block_number trace_db_session).2
        ++ (_find_or_fetch_block_receipts ps w3 block_number trace_db_session).2
        ++ (_find_or_fetch_block_traces ps w3 block_number trace_db_session).2 := rfl

/-- C1: with a cache configured and a nonzero-timestamp header row cached,
the assembly never invokes the gateway header fetch, and a returned `Block`
carries the cached timestamp and base fee unmodified. -/
theorem create_from_block_number_cached_header (ps : Parsers) (w3 : Gateway)
    (block_number : Nat) (db : TraceDB) (ts base_fee : Nat)
    (hdb : db.blocks block_number = some (ts, base_fee)) (hts : ts ≠ 0) :
    (∀ n, Effect.rpcGetBlock n
        ∉ (create_from_block_number ps w3 block_number (some db)).2) ∧
    ∀ b, (create_from_block_number ps w3 block_number (some db)).1 = .ok b →
      b.block_timestamp = ts ∧ b.base_fee_per_gas = base_fee := by
  have hhdr := find_or_fetch_block_cache_hit w3 block_number db ts base_fee hdb hts
  constructor
  · intro n hmem
    rw [create_snd_eq] at hmem
    rcases List.mem_append.mp hmem with hmem | hmem
    · rcases List.mem_append.mp hmem with h1 | h2
      · rw [hhdr] at h1
        simp at h1
      · rcases receipts_log_eq ps w3 block_number (some db) with hl | hl | hl <;>
          rw [hl] at h2 <;> simp at h2
    · rcases traces_log_eq ps w3 block_number (some db) with hl | hl | hl <;>
        rw [hl] at hmem <;> simp at hmem
  · intro b hb
    have hH : (_find_or_fetch_block w3 block_number (some db)).1
        = Except.ok (ts, base_fee) := by rw [hhdr]
    rw [create_fst_eq, hH, except_bind_ok] at hb
    rcases hR : (_find_or_fetch_block_receipts ps w3 block_number (some db)).1
      with e | receipts <;> rw [hR] at hb
    · rw [except_bind_error] at hb
      exact Except.noConfusion hb
    · rw [except_bind_ok] at hb
      rcases hT : (_find_or_fetch_block_traces ps w3 block_number (some db)).1
        with e | traces <;> rw [hT] at hb
      · rw [except_bind_error] at hb
        exact Except.noConfusion hb
      · rw [except_bind_ok] at hb
        rcases hM : _get_miner_address_from_traces traces
          with e | miner_address <;> rw [hM] at hb
        · rw [except_bind_error] at hb
          exact Except.noConfusion hb
        · rw [except_bind_ok, except_pure] at hb
          simp only [Except.ok.injEq] at hb
          rw [← hb]
          exact ⟨rfl, rfl⟩

/-- Witness for C1: the spec's scenario — block `12970000`, cached header
`(1622547800, 1000000000)`, no cached receipts or traces — returns the
cached pair with no gateway header fetch; the assembly succeeds concretely. -/
theorem create_from_block_number_cached_header_witness :
    ((∀ n, Effect.rpcGetBlock n
        ∉ (create_from_block_number psFix w3Empty 12970000 (some dbHeaderOnly)).2) ∧
      ∀ b, (create_from_block_number psFix w3Empty 12970000 (some dbHeaderOnly)).1 = .ok b →
        b.block_timestamp = 1622547800 ∧ b.base_fee_per_gas = 1000000000) ∧
    (create_from_block_number psFix w3Empty 12970000 (some dbHeaderOnly)).1
      = .ok ⟨12970000, 1622547800, none, 1000000000, [], []⟩ :=
  ⟨create_from_block_number_cached_header psFix w3Empty 12970000 dbHeaderOnly
      1622547800 1000000000 rfl (by decide), rfl⟩

/-- C7: the assembly is all-or-nothing — a returned `Block` implies all three
sub-lookups succeeded, and the failure of any sub-lookup makes the whole
assembly fail. -/
theorem create_from_block_number_all_or_nothing (ps : Parsers) (w3 : Gateway)
    (block_number : Nat) (trace_db_session : Option TraceDB) :
    (∀ b, (create_from_block_number ps w3 block_number trace_db_session).1 = .ok b →
      (∃ x, (_find_or_fetch_block w3 block_number trace_db_session).1 = .ok x) ∧
      (∃ x, (_find_or_fetch_block_receipts ps w3 block_number trace_db_session).1 = .ok x) ∧
      (∃ x, (_find_or_fetch_block_traces ps w3 block_number trace_db_session).1 = .ok x)) ∧
    (∀ e, ((_find_or_fetch_block w3 block_number trace_db_session).1 = .error e ∨
        (_find_or_fetch_block_receipts ps w3 block_number trace_db_session).1 = .error e ∨
        (_find_or_fetch_block_traces ps w3 block_number trace_db_session).1 = .error e) →
      ∃ e', (create_from_block_number ps w3 block_number trace_db_session).1 = .error e') := by
  constructor
  · intro b hb
    rw [create_fst_eq] at hb
    rcases hH : (_find_or_fetch_block w3 block_number trace_db_session).1
      with e₁ | tsfee <;> rw [hH] at hb
    · rw [except_bind_error] at hb
      exact Except.noConfusion hb
    · rw [except_bind_ok] at hb
      rcases hR : (_find_or_fetch_block_receipts ps w3 block_number trace_db_session).1
        with e₂ | receipts <;> rw [hR] at hb
      · rw [except_bind_error] at hb
        exact Except.noConfusion hb
      · rw [except_bind_ok] at hb
        rcases hT : (_find_or_fetch_block_traces ps w3 block_number trace_db_session).1
          with e₃ | traces <;> rw [hT] at hb
        · rw [except_bind_error] at hb
          exact Except.noConfusion hb
        · exact ⟨⟨tsfee, rfl⟩, ⟨receipts, rfl⟩, ⟨traces, rfl⟩⟩
  · intro e he
    rw [create_fst_eq]
    rcases hH : (_find_or_fetch_block w3 block_number trace_db_session).1
      with e₁ | tsfee
    · rw [except_bind_error]
      exact ⟨e₁, rfl⟩
    · rw [except_bind_ok]
      rcases hR : (_find_or_fetch_block_receipts ps w3 block_number trace_db_session).1
        with e₂ | receipts
      · rw [except_bind_error]
        exact ⟨e₂, rfl⟩
      · rw [except_bind_ok]
        rcases hT : (_find_or_fetch_block_traces ps w3 block_number trace_db_session).1
          with e₃ | traces
        · rw [except_bind_error]
          exact ⟨e₃, rfl⟩
        · exfalso
          rcases he with he | he | he
          · rw [hH] at he
            exact Except.noConfusion he
          · rw [hR] at he
            exact Except.noConfusion he
          · rw [hT] at he
            exact Except.noConfusion he

/-- Witness for C7: a gateway whose receipts fetch fails with a transport
error makes the whole assembly fail, though header and traces succeed. -/
theorem create_from_block_number_all_or_nothing_witness :
    ∃ e', (create_from_block_number psFix w3FailReceipts 5 none).1 = .error e' :=
  (create_from_block_number_all_or_nothing psFix w3FailReceipts 5 none).2
    "ConnectionError" (Or.inr (Or.inl rfl))

/-- C9: every database command the assembly issues is one of the three
`SELECT` point lookups — the cache is only read, never written. -/
theorem create_from_block_number_only_reads_cache (ps : Parsers) (w3 : Gateway)
    (block_number : Nat) (trace_db_session : Option TraceDB) (sql : String) (n : Nat)
    (hmem : Effect.dbQuery sql n
      ∈ (create_from_block_number ps w3 block_number trace_db_session).2) :
    sql ∈ [sqlBlocks, sqlBlockReceipts, sqlBlockTraces] ∧
      sql.data.take 6 = "SELECT".data := by
  suffices h : sql ∈ [sqlBlocks, sqlBlockReceipts, sqlBlockTraces] by
    refine ⟨h, ?_⟩
    simp only [List.mem_cons, List.not_mem_nil, or_false] at h
    rcases h with rfl | rfl | rfl <;> decide
  rw [create_snd_eq] at hmem
  rcases List.mem_append.mp hmem with hmem | hmem
  · rcases List.mem_append.mp hmem with h1 | h2
    · rcases header_log_eq w3 block_number trace_db_session with hl | hl | hl <;>
        rw [hl] at h1 <;> simp_all
    · rcases receipts_log_eq ps w3 block_number trace_db_session with hl | hl | hl <;>
        rw [hl] at h2 <;> simp_all
  · rcases traces_log_eq ps w3 block_number trace_db_session with hl | hl | hl <;>
      rw [hl] at hmem <;> simp_all

/-- Witness for C9: in the cached-header scenario a header `SELECT` is
issued and is indeed among the three read-only queries. -/
theorem create_from_block_number_only_reads_cache_witness :
    sqlBlocks ∈ [sqlBlocks, sqlBlockReceipts, sqlBlockTraces] ∧
      sqlBlocks.data.take 6 = "SELECT".data :=
  create_from_block_number_only_reads_cache psFix w3Empty 12970000
    (some dbHeaderOnly) sqlBlocks 12970000 (List.mem_cons_self _ _)

/-- C8: `get_latest_block_number` issues exactly the raw headers-only
latest-block request and decodes the hexadecimal `number` field of the
response's `result` object: `{"result": {"number": "0xa"}}` yields `10`,
while an absent field or malformed hex yields an error. -/
theorem get_latest_block_number_spec (p : Provider) :
    (get_latest_block_number p).2
        = [Effect.rpcRequest "eth_getBlockByNumber" [Json.str "latest", Json.bool false]] ∧
    (p.make_request "eth_getBlockByNumber" [Json.str "latest", Json.bool false]
        = .ok (Json.obj [("result", Json.obj [("number", Json.str "0xa")])]) →
      (get_latest_block_number p).1 = .ok 10) ∧
    (p.make_request "eth_getBlockByNumber" [Json.str "latest", Json.bool false]
        = .ok (Json.obj [("result", Json.obj [])]) →
      ∃ e, (get_latest_block_number p).1 = .error e) ∧
    (p.make_request "eth_getBlockByNumber" [Json.str "latest", Json.bool false]
        = .ok (Json.obj [("result", Json.obj [("number", Json.str "0xzz")])]) →
      ∃ e, (get_latest_block_number p).1 = .error e) := by
  refine ⟨rfl, fun h => ?_, fun h => ⟨"KeyError: number", ?_⟩,
    fun h => ⟨"ValueError: invalid hex literal", ?_⟩⟩ <;>
    simp only [get_latest_block_number] <;> rw [h] <;> rfl

/-- Witness for C8 at a provider answering `{"result": {"number": "0xa"}}`:
the decoded latest block number is `10`. -/
theorem get_latest_block_number_spec_witness :
    (get_latest_block_number providerA).1 = .ok 10 :=
  (get_latest_block_number_spec providerA).2.1 rfl

end MevInspect
